import Mathlib

/-!
Verification development for the fyta-mcp-server analytical core.

Shallow embedding of the threshold evaluator (utils/thresholds.py), the
trend engine (utils/trends.py), the measurement extractor and diagnosis
confidence discount (handlers.py), and the event detector/filter
(utils/events.py).  Python floats are modelled as rationals, Python
dictionaries as structures with Option-valued fields (none = key absent
or value None; a missing or empty dict is modelled as none), and Python
exceptions as Except.error results.
-/

/-- Python truthiness-based fallback on numbers: models the expression
a or b where a, b are numeric-or-None; None and 0 are falsy. -/
def pyOr (a b : Option ℚ) : Option ℚ :=
  match a with
  | none => b
  | some v => if v = 0 then b else some v

/-- Python truthiness-based fallback on strings: models a or b where the
empty string is falsy. -/
def pyOrStr (a b : String) : String :=
  if a = "" then b else a

/-! ## utils/thresholds.py -/

/-- Embeds evaluate_metric_status (utils/thresholds.py lines 17-58).
The chain of early returns is modelled by nested ifs in source order. -/
def evaluate_metric_status (value min_good max_good : ℚ)
    (min_acceptable max_acceptable : Option ℚ) : ℤ × String :=
  if min_good ≤ value ∧ value ≤ max_good then (2, "optimal")
  else if value < min_good then
    match min_acceptable with
    | some a => if value < a then (4, "critical_low") else (1, "low")
    | none => (1, "low")
  else if max_good < value then
    match max_acceptable with
    | some a => if a < value then (4, "critical_high") else (3, "high")
    | none => (3, "high")
  else (2, "optimal")

/-- A FYTA threshold set dictionary: every key may be absent. -/
structure ThresholdsD where
  temperature_min_good : Option ℚ := none
  temperature_max_good : Option ℚ := none
  temperature_min_acceptable : Option ℚ := none
  temperature_max_acceptable : Option ℚ := none
  moisture_min_good : Option ℚ := none
  moisture_max_good : Option ℚ := none
  moisture_min_acceptable : Option ℚ := none
  moisture_max_acceptable : Option ℚ := none
  salinity_min_good : Option ℚ := none
  salinity_max_good : Option ℚ := none
  salinity_min_acceptable : Option ℚ := none
  salinity_max_acceptable : Option ℚ := none
  light_min_good : Option ℚ := none
  light_max_good : Option ℚ := none
  light_min_acceptable : Option ℚ := none
  light_max_acceptable : Option ℚ := none
  thresholds_type : Option String := none
deriving DecidableEq

/-- A plant dictionary restricted to the keys read by evaluate_plant_status
and get_active_thresholds. -/
structure PlantD where
  temperature : Option ℚ := none
  moisture : Option ℚ := none
  soil_moisture : Option ℚ := none
  salinity : Option ℚ := none
  soil_fertility : Option ℚ := none
  light : Option ℚ := none
  soil_fertility_anomaly : Bool := false
  temperature_status : Option ℤ := none
  moisture_status : Option ℤ := none
  salinity_status : Option ℤ := none
  light_status : Option ℤ := none
  thresholds : Option ThresholdsD := none
  thresholds_list : List ThresholdsD := []
deriving DecidableEq

/-- The measurements response dictionary, restricted to the keys read by
evaluate_plant_status; thresholds_list is Option-valued because the code
tests key membership. -/
structure MeasurementsD where
  thresholds : Option ThresholdsD := none
  thresholds_list : Option (List ThresholdsD) := none
deriving DecidableEq

/-- An EC trend dictionary as consumed by the nutrient anomaly check. -/
structure ECTrendD where
  analyzed : Bool := false
  trend : Option String := none
  initial_ec : Option ℚ := none
deriving DecidableEq

/-- One per-metric entry of the evaluate_plant_status result, flattening
the nested thresholds sub-dictionary; fields that a given branch does not
emit are none. -/
structure MetricResult where
  status : ℤ
  status_name : Option String := none
  value : Option ℚ := none
  min_good : Option ℚ := none
  max_good : Option ℚ := none
  min_acceptable : Option ℚ := none
  anomaly : Option Bool := none
  fyta_status : Option ℤ := none
  matches_fyta : Option Bool := none
  adjusted_thresholds : Option Bool := none
deriving DecidableEq

/-- The result dictionary of evaluate_plant_status. -/
structure PlantStatusResult where
  temperature : Option MetricResult
  light : Option MetricResult
  moisture : Option MetricResult
  nutrients : Option MetricResult
  use_fyta_status : Bool
  evaluation_method : String
deriving DecidableEq

/-- Embeds get_active_thresholds (utils/thresholds.py lines 61-85). -/
def get_active_thresholds (plant : PlantD) : Option ThresholdsD :=
  match plant.thresholds with
  | some t => some t
  | none => plant.thresholds_list.head?

/-- Threshold resolution prologue of evaluate_plant_status
(utils/thresholds.py lines 110-122): measurements thresholds, then the
first entry of the measurements thresholds_list, then the plant. -/
def resolveThresholds (plant : PlantD) (md : Option MeasurementsD) :
    Option ThresholdsD :=
  let fromMd : Option ThresholdsD :=
    match md with
    | none => none
    | some m =>
      match m.thresholds with
      | some t => some t
      | none =>
        match m.thresholds_list with
        | none => none
        | some tl => tl.head?
  match fromMd with
  | some t => some t
  | none => get_active_thresholds plant

/-- Salinity band selection (utils/thresholds.py lines 222-241): when the
good band collapses to (0, 0), look for a summer threshold set in the
measurements response, and finally fall back to (0.2, 1.0). -/
def salinityBand (thresholds : ThresholdsD) (md : Option MeasurementsD) :
    ℚ × ℚ :=
  let min_good := thresholds.salinity_min_good.getD 0
  let max_good := thresholds.salinity_max_good.getD 0
  if min_good = 0 ∧ max_good = 0 then
    let fromSummer : ℚ × ℚ :=
      match md with
      | some m =>
        match m.thresholds_list with
        | some tl =>
          match tl.find? (fun t => decide (t.thresholds_type = some "summer")) with
          | some t => (t.salinity_min_good.getD (2/10), t.salinity_max_good.getD 1)
          | none => (min_good, max_good)
        | none => (min_good, max_good)
      | none => (min_good, max_good)
    if fromSummer.1 = 0 ∧ fromSummer.2 = 0 then (2/10, 1) else fromSummer
  else (min_good, max_good)

/-- The is_sensor_error decision of the nutrient anomaly check
(utils/thresholds.py lines 256-274): with an analyzed trend, a sudden
drop (initial EC above 0.3 without a decreasing trend) is a sensor
error; without analyzed trend data the conservative answer is true. -/
def nutrientsSensorError (ec_trend : Option ECTrendD) : Bool :=
  match ec_trend with
  | some ect =>
    if ect.analyzed then
      decide (ect.initial_ec.getD 0 > 3/10 ∧ ect.trend ≠ some "decreasing")
    else true
  | none => true

/-- Temperature section of evaluate_plant_status
(utils/thresholds.py lines 154-184). -/
def tempResult (plant : PlantD) (thresholds : ThresholdsD) :
    Option MetricResult :=
  match plant.temperature with
  | none => none
  | some temp =>
    let mg := thresholds.temperature_min_good.getD 0
    let xg := thresholds.temperature_max_good.getD 100
    let r := evaluate_metric_status temp mg xg
      thresholds.temperature_min_acceptable thresholds.temperature_max_acceptable
    some { status := r.1, status_name := some r.2, value := some temp,
           min_good := some mg, max_good := some xg,
           fyta_status := plant.temperature_status,
           matches_fyta := some (decide (r.1 = plant.temperature_status.getD 2)) }

/-- Moisture section of evaluate_plant_status
(utils/thresholds.py lines 186-213); the value is moisture with
soil_moisture as truthiness fallback. -/
def moistureResult (plant : PlantD) (thresholds : ThresholdsD) :
    Option MetricResult :=
  match pyOr plant.moisture plant.soil_moisture with
  | none => none
  | some v =>
    let mg := thresholds.moisture_min_good.getD 0
    let xg := thresholds.moisture_max_good.getD 100
    let r := evaluate_metric_status v mg xg
      thresholds.moisture_min_acceptable thresholds.moisture_max_acceptable
    some { status := r.1, status_name := some r.2, value := some v,
           min_good := some mg, max_good := some xg,
           fyta_status := plant.moisture_status,
           matches_fyta := some (decide (r.1 = plant.moisture_status.getD 2)) }

/-- Nutrients section of evaluate_plant_status
(utils/thresholds.py lines 215-302): band selection, numeric evaluation,
then the anomaly override chain. -/
def nutrientsResult (plant : PlantD) (thresholds : ThresholdsD)
    (md : Option MeasurementsD) (ec_trend : Option ECTrendD) :
    Option MetricResult :=
  match pyOr plant.salinity plant.soil_fertility with
  | none => none
  | some nv =>
    let anomalyFlag := plant.soil_fertility_anomaly
    let band := salinityBand thresholds md
    let base := evaluate_metric_status nv band.1 band.2
      thresholds.salinity_min_acceptable thresholds.salinity_max_acceptable
    let final : ℤ × String :=
      if anomalyFlag ∧ nv = 0 then
        if nutrientsSensorError ec_trend then (4, "sensor_error") else base
      else if anomalyFlag ∧ nv ≠ 0 then (4, "sensor_error")
      else base
    some { status := final.1, status_name := some final.2, value := some nv,
           min_good := some band.1, max_good := some band.2,
           anomaly := some anomalyFlag,
           fyta_status := plant.salinity_status,
           matches_fyta := some (decide (final.1 = plant.salinity_status.getD 2)),
           adjusted_thresholds :=
             some (decide (band.1 ≠ thresholds.salinity_min_good.getD 0)) }

/-- Light section of evaluate_plant_status
(utils/thresholds.py lines 304-338), including the clamp of the lower
acceptable bound to 0 when it is absent or positive. -/
def lightResult (plant : PlantD) (thresholds : ThresholdsD) :
    Option MetricResult :=
  match plant.light with
  | none => none
  | some v =>
    let mg := thresholds.light_min_good.getD 0
    let xg := thresholds.light_max_good.getD 1000
    let mina : Option ℚ :=
      match thresholds.light_min_acceptable with
      | none => some 0
      | some a => if a > 0 then some 0 else some a
    let r := evaluate_metric_status v mg xg mina thresholds.light_max_acceptable
    some { status := r.1, status_name := some r.2, value := some v,
           min_good := some mg, max_good := some xg, min_acceptable := mina,
           fyta_status := plant.light_status,
           matches_fyta := some (decide (r.1 = plant.light_status.getD 2)) }

/-- Degraded branch of evaluate_plant_status when no threshold set
resolves (utils/thresholds.py lines 131-152): trust the FYTA status
codes directly. -/
def fytaFallbackResult (plant : PlantD) : PlantStatusResult :=
  { temperature := some { status := plant.temperature_status.getD 2,
                          value := plant.temperature },
    moisture := some { status := plant.moisture_status.getD 2,
                       value := plant.moisture },
    nutrients := some { status := plant.salinity_status.getD 2,
                        value := plant.salinity },
    light := some { status := plant.light_status.getD 2,
                    value := plant.light },
    use_fyta_status := true,
    evaluation_method := "fyta" }

/-- Embeds evaluate_plant_status (utils/thresholds.py lines 88-342),
composed from the per-metric section functions above. -/
def evaluate_plant_status (plant : PlantD) (md : Option MeasurementsD)
    (ec_trend : Option ECTrendD) : PlantStatusResult :=
  match resolveThresholds plant md with
  | none => fytaFallbackResult plant
  | some thresholds =>
    { temperature := tempResult plant thresholds,
      moisture := moistureResult plant thresholds,
      nutrients := nutrientsResult plant thresholds md ec_trend,
      light := lightResult plant thresholds,
      use_fyta_status := false,
      evaluation_method := "smart" }

/-! ## utils/trends.py -/

/-- Result dictionary of calculate_trend; the keys only emitted on one of
the two return paths are Option-valued. -/
structure TrendResult where
  direction : String
  slope : ℚ
  confidence : ℚ
  data_points : ℕ
  forecast_hours : Option ℚ := none
  slope_percent_per_hour : Option ℚ := none
  first_value : Option ℚ := none
  last_value : Option ℚ := none
  change : Option ℚ := none
  change_percent : Option ℚ := none
deriving DecidableEq

/-- Models the Python built-in round(x, p); the tie-breaking of binary
floats is approximated by round-half-up on rationals.  No claim in this
development depends on the tie behaviour. -/
def roundTo (x : ℚ) (p : ℕ) : ℚ := ((round (x * 10 ^ p) : ℤ) : ℚ) / 10 ^ p

/-- Embeds calculate_trend (utils/trends.py lines 6-80).  The Python
function reads the local variable recent_value while building the result
dictionary even though it is only assigned in the nonzero time-range
branch; with two or more points spanning a zero time range this raises
UnboundLocalError, modelled as an Except.error result. -/
def calculate_trend (data_points : List (ℚ × ℚ)) : Except String TrendResult :=
  if data_points.length < 2 then
    .ok { direction := "stable", slope := 0, confidence := 0,
          data_points := 0, forecast_hours := none }
  else
    let pts := List.insertionSort (fun p q : ℚ × ℚ => p.1 ≤ q.1) data_points
    let n : ℚ := pts.length
    let sum_x := (pts.map Prod.fst).sum
    let sum_y := (pts.map Prod.snd).sum
    let sum_xy := (pts.map (fun p => p.1 * p.2)).sum
    let sum_x2 := (pts.map (fun p => p.1 * p.1)).sum
    let denom : ℚ := n * sum_x2 - sum_x * sum_x
    let slope : ℚ := if denom = 0 then 0 else (n * sum_xy - sum_x * sum_y) / denom
    let mean_y : ℚ := sum_y / n
    let ss_tot : ℚ := (pts.map (fun p => (p.2 - mean_y) ^ 2)).sum
    let intercept : ℚ := (sum_y - slope * sum_x) / n
    let ss_res : ℚ := (pts.map (fun p => (p.2 - (slope * p.1 + intercept)) ^ 2)).sum
    let r_squared : ℚ := if ss_tot > 0 then 1 - ss_res / ss_tot else 0
    let first := pts.headD (0, 0)
    let last := pts.getLastD (0, 0)
    let time_range := last.1 - first.1
    if time_range = 0 then
      .error "UnboundLocalError: local variable recent_value referenced before assignment"
    else
      let slope_per_hour := slope / time_range
      let recent_value := last.2
      let direction :=
        if |slope_per_hour| < |recent_value * (5/1000)| then "stable"
        else if slope_per_hour > 0 then "increasing"
        else "decreasing"
      .ok { direction := direction,
            slope := roundTo slope_per_hour 4,
            confidence := roundTo r_squared 2,
            data_points := pts.length,
            forecast_hours := none,
            slope_percent_per_hour :=
              some (roundTo (slope_per_hour /
                (if recent_value ≠ 0 then recent_value else 1) * 100) 2),
            first_value := some (roundTo first.2 2),
            last_value := some (roundTo last.2 2),
            change := some (roundTo (last.2 - first.2) 2),
            change_percent :=
              some (roundTo
                (if first.2 ≠ 0 then (last.2 - first.2) / first.2 * 100 else 0) 2) }

/-! ## handlers.py: measurement extraction -/

/-- A measurement record restricted to the timestamp candidate fields read
by get_latest_measurement; tag stands for the rest of the payload and
distinguishes records. -/
structure Meas where
  date_utc : Option String := none
  timestamp : Option String := none
  measured_at : Option String := none
  tag : ℕ := 0
deriving DecidableEq

/-- The sort key of get_latest_measurement (handlers.py line 465):
date_utc, then timestamp, then measured_at, each defaulting to the empty
string, combined by Python truthiness. -/
def measTsStr (m : Meas) : String :=
  pyOrStr (m.date_utc.getD "") (pyOrStr (m.timestamp.getD "") (m.measured_at.getD ""))

/-- Python compares strings lexicographically by code point; the key is
mapped to the list of code points, compared by the lexicographic order
on lists of naturals. -/
def measKey (m : Meas) : List ℕ := (measTsStr m).data.map Char.toNat

/-- The comparison underlying the sort in get_latest_measurement. -/
def measLe (a b : Meas) : Prop := measKey a ≤ measKey b

instance : DecidableRel measLe := fun a b =>
  inferInstanceAs (Decidable (measKey a ≤ measKey b))

instance : IsTotal Meas measLe := ⟨fun a b => le_total (measKey a) (measKey b)⟩

instance : IsTrans Meas measLe :=
  ⟨fun _ _ _ hab hbc => le_trans (α := List ℕ) hab hbc⟩

/-- Embeds get_latest_measurement (handlers.py lines 446-468): a stable
sort by the resolved timestamp key, returning the last element; None on
an empty list.  Python timsort and insertion sort are both stable, so
they agree on every input. -/
def get_latest_measurement (measurements_list : List Meas) : Option Meas :=
  (List.insertionSort measLe measurements_list).getLast?

/-! ## handlers.py: diagnosis confidence, data recency discount -/

/-- Data-recency discount of the diagnosis confidence score
(handlers.py lines 1144-1149): the first matching branch of
if hours_ago > 24 / elif hours_ago > 48 determines the factor. -/
def diagnose_recency_discount (hours_ago : ℚ) : ℚ :=
  if hours_ago > 24 then 8/10
  else if hours_ago > 48 then 6/10
  else 1

/-! ## utils/events.py -/

/-- A plant snapshot restricted to the keys read by
detect_critical_moisture. -/
structure PlantSnap where
  id : ℤ
  nickname : Option String := none
  moisture_status : Option ℤ := none
deriving DecidableEq

/-- The critical_moisture event dictionary.  The event_id and timestamp
keys derive from the wall clock and an md5 hash and are omitted from the
model; is_new_critical is Option-valued because Python short-circuit
evaluation stores None there when no previous state exists. -/
structure MoistEvent where
  event_type : String
  plant_id : ℤ
  plant_name : String
  severity : String
  priority : String
  message : String
  actionable : Bool
  is_new_critical : Option Bool
deriving DecidableEq

/-- Embeds detect_critical_moisture (utils/events.py lines 224-260).
The Python expression previous_state and previous_state.get(...) != 1
evaluates to None when previous_state is None, modelled as none. -/
def detect_critical_moisture (current : PlantSnap)
    (previous : Option PlantSnap) : Option MoistEvent :=
  if current.moisture_status.getD 2 = 1 then
    let is_new : Option Bool :=
      match previous with
      | none => none
      | some p => some (decide (p.moisture_status.getD 2 ≠ 1))
    some { event_type := "critical_moisture",
           plant_id := current.id,
           plant_name := current.nickname.getD "Unknown",
           severity := "critical",
           priority := "immediate",
           message := (if is_new.getD false then "URGENT: " else "") ++
             "Plant needs water NOW!",
           actionable := true,
           is_new_critical := is_new }
  else none

/-- An event dictionary restricted to the keys read by filter_events and
the sort in handle_get_plant_events; tag stands for the remaining payload
and distinguishes events. -/
structure Event where
  severity : String
  priority : String
  event_type : String
  plant_id : ℤ
  actionable : Bool
  tag : ℕ := 0
deriving DecidableEq

/-- The filters dictionary of filter_events.  The scalar-or-list
normalization of the source is modelled by list-valued criteria (a scalar
filter becomes a singleton list). -/
structure EventFilters where
  severity : Option (List String) := none
  priority : Option (List String) := none
  event_type : Option (List String) := none
  plant_id : Option (List ℤ) := none
  actionable : Option Bool := none

/-- Embeds filter_events (utils/events.py lines 358-393): five successive
narrowing passes, one per provided criterion. -/
def filter_events (events : List Event) (filters : Option EventFilters) :
    List Event :=
  match filters with
  | none => events
  | some f =>
    let f1 := match f.severity with
      | none => events
      | some allowed => events.filter (fun e => decide (e.severity ∈ allowed))
    let f2 := match f.priority with
      | none => f1
      | some allowed => f1.filter (fun e => decide (e.priority ∈ allowed))
    let f3 := match f.event_type with
      | none => f2
      | some allowed => f2.filter (fun e => decide (e.event_type ∈ allowed))
    let f4 := match f.plant_id with
      | none => f3
      | some ids => f3.filter (fun e => decide (e.plant_id ∈ ids))
    match f.actionable with
    | none => f4
    | some b => f4.filter (fun e => e.actionable == b)

/-- Conjunction of all provided filter criteria, as the specification
states them (AND semantics across provided filters). -/
def eventMatches (f : EventFilters) (e : Event) : Bool :=
  (match f.severity with
   | none => true
   | some allowed => decide (e.severity ∈ allowed)) &&
  (match f.priority with
   | none => true
   | some allowed => decide (e.priority ∈ allowed)) &&
  (match f.event_type with
   | none => true
   | some allowed => decide (e.event_type ∈ allowed)) &&
  (match f.plant_id with
   | none => true
   | some ids => decide (e.plant_id ∈ ids)) &&
  (match f.actionable with
   | none => true
   | some b => e.actionable == b)

/-- Priority rank used by the event sort (handlers.py line 1621),
default 4 for unknown priorities. -/
def priority_rank (p : String) : ℕ :=
  if p = "immediate" then 0
  else if p = "high" then 1
  else if p = "medium" then 2
  else if p = "low" then 3
  else 4

/-- Severity rank used by the event sort (handlers.py line 1622),
default 3 for unknown severities. -/
def severity_rank (s : String) : ℕ :=
  if s = "critical" then 0
  else if s = "warning" then 1
  else if s = "info" then 2
  else 3

/-- The comparison induced by the Python sort key
(priority rank, severity rank): lexicographic order on the pair. -/
def eventLe (a b : Event) : Prop :=
  priority_rank a.priority < priority_rank b.priority ∨
    (priority_rank a.priority = priority_rank b.priority ∧
      severity_rank a.severity ≤ severity_rank b.severity)

instance : DecidableRel eventLe := fun a b =>
  inferInstanceAs (Decidable (_ ∨ _))

instance : IsTotal Event eventLe := by
  constructor
  intro a b
  rcases lt_trichotomy (priority_rank a.priority) (priority_rank b.priority) with h | h | h
  · exact Or.inl (Or.inl h)
  · rcases le_total (severity_rank a.severity) (severity_rank b.severity) with h2 | h2
    · exact Or.inl (Or.inr ⟨h, h2⟩)
    · exact Or.inr (Or.inr ⟨h.symm, h2⟩)
  · exact Or.inr (Or.inl h)

instance : IsTrans Event eventLe := by
  constructor
  intro a b c hab hbc
  rcases hab with h1 | ⟨h1, h1s⟩
  · rcases hbc with h2 | ⟨h2, _⟩
    · exact Or.inl (h1.trans h2)
    · exact Or.inl (h2 ▸ h1)
  · rcases hbc with h2 | ⟨h2, h2s⟩
    · exact Or.inl (h1 ▸ h2)
    · exact Or.inr ⟨h1.trans h2, h1s.trans h2s⟩

/-- The sort applied by handle_get_plant_events (handlers.py lines
1620-1627): a stable sort by (priority rank, severity rank). -/
def sort_events (l : List Event) : List Event := List.insertionSort eventLe l

/-- Filter-then-sort post-processing of handle_get_plant_events
(handlers.py lines 1607-1627). -/
def handle_events_postprocess (events : List Event) (filters : Option EventFilters) :
    List Event :=
  sort_events (filter_events events filters)

/-! ## Claim C1 -/

/-- C1: for every value and threshold band with min_good ≤ max_good,
evaluate_metric_status returns (2, optimal) inside the good band; below
it, (4, critical_low) exactly when a lower acceptable bound is given and
undercut, else (1, low); above it, (4, critical_high) exactly when an
upper acceptable bound is given and exceeded, else (3, high). -/
theorem evaluate_metric_status_cases (value min_good max_good : ℚ)
    (min_acceptable max_acceptable : Option ℚ) (hband : min_good ≤ max_good) :
    (min_good ≤ value ∧ value ≤ max_good →
      evaluate_metric_status value min_good max_good min_acceptable max_acceptable
        = (2, "optimal")) ∧
    (value < min_good →
      evaluate_metric_status value min_good max_good min_acceptable max_acceptable
        = match min_acceptable with
          | some a => if value < a then (4, "critical_low") else (1, "low")
          | none => (1, "low")) ∧
    (max_good < value →
      evaluate_metric_status value min_good max_good min_acceptable max_acceptable
        = match max_acceptable with
          | some a => if a < value then (4, "critical_high") else (3, "high")
          | none => (3, "high")) := by
  unfold evaluate_metric_status
  refine ⟨fun h => by rw [if_pos h], fun h => ?_, fun h => ?_⟩
  · rw [if_neg (fun hc => absurd hc.1 (not_le.2 h)), if_pos h]
  · rw [if_neg (fun hc => absurd hc.2 (not_le.2 h)),
      if_neg (not_lt.2 (le_trans hband h.le)), if_pos h]

/-- Witness for C1 at a concrete input. -/
theorem evaluate_metric_status_cases_witness :
    evaluate_metric_status 5 1 10 none none = (2, "optimal") :=
  (evaluate_metric_status_cases 5 1 10 none none (by norm_num)).1
    ⟨by norm_num, by norm_num⟩

/-! ## Claim C9 -/

/-- C9: every last-update age above 24 hours receives the 0.8 staleness
discount, and the 0.6 branch is unreachable: no input produces the 0.6
factor. -/
theorem diagnose_recency_discount_spec (hours_ago : ℚ) :
    (hours_ago > 24 → diagnose_recency_discount hours_ago = 8/10) ∧
    diagnose_recency_discount hours_ago ≠ 6/10 := by
  constructor
  · intro h
    simp [diagnose_recency_discount, h]
  · unfold diagnose_recency_discount
    split_ifs with h1 h2
    · norm_num
    · exact absurd (lt_trans (by norm_num) h2) h1
    · norm_num

/-- Witness for C9 at a concrete age above 48 hours: still the 0.8
factor. -/
theorem diagnose_recency_discount_spec_witness :
    diagnose_recency_discount 60 = 8/10 ∧ diagnose_recency_discount 60 ≠ 6/10 :=
  ⟨(diagnose_recency_discount_spec 60).1 (by norm_num),
    (diagnose_recency_discount_spec 60).2⟩

/-! ## Claim C7 -/

/-- A concrete plant snapshot in the critical moisture state, used by the
C7 counterexample. -/
def snapC7 : PlantSnap :=
  { id := 1, nickname := some "Basil", moisture_status := some 1 }

/-- C7 counterexample: with moisture_status = 1 and no previous state,
the emitted event carries is_new_critical = None (Python short-circuit
and), which is not the boolean false the claim states. -/
theorem detect_critical_moisture_counterexample :
    (detect_critical_moisture snapC7 none).map MoistEvent.is_new_critical
      = some none ∧
    (detect_critical_moisture snapC7 none).map MoistEvent.is_new_critical
      ≠ some (some false) := by
  constructor
  · rfl
  · decide

/-- C7 amended: with moisture_status = 1 and no previous state,
detect_critical_moisture emits exactly one event with severity critical,
priority immediate and is_new_critical = None (a falsy null, not the
boolean false); with moisture_status ≠ 1 it emits nothing. -/
theorem detect_critical_moisture_spec (p : PlantSnap) (prev : Option PlantSnap) :
    (p.moisture_status.getD 2 = 1 →
      detect_critical_moisture p none =
        some { event_type := "critical_moisture", plant_id := p.id,
               plant_name := p.nickname.getD "Unknown",
               severity := "critical", priority := "immediate",
               message := "Plant needs water NOW!",
               actionable := true, is_new_critical := none }) ∧
    (p.moisture_status.getD 2 ≠ 1 → detect_critical_moisture p prev = none) := by
  constructor
  · intro h
    simp [detect_critical_moisture, h]
  · intro h
    simp [detect_critical_moisture, h]

/-- A concrete plant snapshot used by the C7 witness. -/
def snapC7w : PlantSnap := { id := 7, nickname := none, moisture_status := some 1 }

/-- Witness for C7 at a concrete snapshot. -/
theorem detect_critical_moisture_spec_witness :
    detect_critical_moisture snapC7w none =
      some { event_type := "critical_moisture",
             plant_id := 7,
             plant_name := "Unknown",
             severity := "critical",
             priority := "immediate",
             message := "Plant needs water NOW!",
             actionable := true,
             is_new_critical := none } :=
  (detect_critical_moisture_spec snapC7w none).1 (by decide)

/-! ## Claim C10 -/

/-- C10: with the anomaly flag set and a non-zero nutrient value, the
nutrient status is unconditionally forced to (4, sensor_error), and the
EC trend argument is never consulted: any two trend inputs produce the
same whole result. -/
theorem nutrients_nonzero_anomaly_forced (plant : PlantD)
    (md : Option MeasurementsD) (ec1 ec2 : Option ECTrendD)
    (t : ThresholdsD) (v : ℚ)
    (hT : resolveThresholds plant md = some t)
    (hv : pyOr plant.salinity plant.soil_fertility = some v)
    (hnz : v ≠ 0) (ha : plant.soil_fertility_anomaly = true) :
    ((evaluate_plant_status plant md ec1).nutrients).map
        (fun r => (r.status, r.status_name)) = some (4, some "sensor_error") ∧
      evaluate_plant_status plant md ec1 = evaluate_plant_status plant md ec2 := by
  have key : ∀ ec : Option ECTrendD, nutrientsResult plant t md ec =
      some { status := 4, status_name := some "sensor_error", value := some v,
             min_good := some (salinityBand t md).1,
             max_good := some (salinityBand t md).2,
             anomaly := some true,
             fyta_status := plant.salinity_status,
             matches_fyta := some (decide ((4 : ℤ) = plant.salinity_status.getD 2)),
             adjusted_thresholds :=
               some (decide ((salinityBand t md).1 ≠ t.salinity_min_good.getD 0)) } := by
    intro ec
    simp [nutrientsResult, hv, ha, hnz]
  constructor
  · simp [evaluate_plant_status, hT, key ec1]
  · simp [evaluate_plant_status, hT, key ec1, key ec2]

/-- A concrete threshold set used by the C10 witness. -/
def thrC10 : ThresholdsD :=
  { salinity_min_good := some (3/10), salinity_max_good := some 1 }

/-- A concrete anomalous plant with a non-zero EC value, used by the C10
witness. -/
def plantC10 : PlantD :=
  { soil_fertility := some 2, soil_fertility_anomaly := true,
    thresholds := some thrC10 }

/-- A concrete analyzed EC trend used by the C10 witness. -/
def ecC10 : ECTrendD :=
  { analyzed := true, trend := some "decreasing", initial_ec := some 1 }

/-- Witness for C10 at a concrete plant, with two different trend
inputs. -/
theorem nutrients_nonzero_anomaly_forced_witness :
    ((evaluate_plant_status plantC10 none (some ecC10)).nutrients).map
        (fun r => (r.status, r.status_name)) = some (4, some "sensor_error") ∧
      evaluate_plant_status plantC10 none (some ecC10) =
        evaluate_plant_status plantC10 none none :=
  nutrients_nonzero_anomaly_forced plantC10 none (some ecC10) none thrC10 2 rfl
    (by norm_num [pyOr, plantC10]) (by norm_num) rfl

/-! ## Claim C4 -/

/-- C4: with the anomaly flag set and a zero nutrient value, the status
is forced to (4, sensor_error) when an analyzed EC trend shows a sudden
drop (initial EC above 0.3, trend not decreasing), and likewise when no
analyzed trend is available; with an analyzed trend showing a gradual
decline, the numeric threshold-based status is kept. -/
theorem nutrients_zero_anomaly_cases (plant : PlantD)
    (md : Option MeasurementsD) (ec : Option ECTrendD) (t : ThresholdsD)
    (hT : resolveThresholds plant md = some t)
    (hv : pyOr plant.salinity plant.soil_fertility = some 0)
    (ha : plant.soil_fertility_anomaly = true) :
    ((∃ e, ec = some e ∧ e.analyzed = true ∧ e.initial_ec.getD 0 > 3/10 ∧
        e.trend ≠ some "decreasing") →
      ((evaluate_plant_status plant md ec).nutrients).map
        (fun r => (r.status, r.status_name)) = some (4, some "sensor_error")) ∧
    ((∀ e, ec = some e → e.analyzed = false) →
      ((evaluate_plant_status plant md ec).nutrients).map
        (fun r => (r.status, r.status_name)) = some (4, some "sensor_error")) ∧
    (∀ e, ec = some e → e.analyzed = true →
      ¬(e.initial_ec.getD 0 > 3/10 ∧ e.trend ≠ some "decreasing") →
      ((evaluate_plant_status plant md ec).nutrients).map
        (fun r => (r.status, r.status_name)) =
        some ((evaluate_metric_status 0 (salinityBand t md).1 (salinityBand t md).2
            t.salinity_min_acceptable t.salinity_max_acceptable).1,
          some (evaluate_metric_status 0 (salinityBand t md).1 (salinityBand t md).2
            t.salinity_min_acceptable t.salinity_max_acceptable).2)) := by
  refine ⟨?_, ?_, ?_⟩
  · rintro ⟨e, rfl, hana, hec, htr⟩
    have hse : nutrientsSensorError (some e) = true := by
      simp [nutrientsSensorError, hana, hec, htr]
    simp [evaluate_plant_status, hT, nutrientsResult, hv, ha, hse]
  · intro hno
    have hse : nutrientsSensorError ec = true := by
      cases ec with
      | none => rfl
      | some e => simp [nutrientsSensorError, hno e rfl]
    simp [evaluate_plant_status, hT, nutrientsResult, hv, ha, hse]
  · rintro e rfl hana hneg
    have hse : nutrientsSensorError (some e) = false := by
      simp [nutrientsSensorError, hana]
      tauto
    simp [evaluate_plant_status, hT, nutrientsResult, hv, ha, hse]

/-- A concrete threshold set used by the C4 witness. -/
def thrC4 : ThresholdsD :=
  { salinity_min_good := some (3/10), salinity_max_good := some 1 }

/-- A concrete anomalous plant with a zero EC value, used by the C4
witness. -/
def plantC4 : PlantD :=
  { soil_fertility := some 0, soil_fertility_anomaly := true,
    thresholds := some thrC4 }

/-- A concrete analyzed EC trend showing a sudden drop (initial EC 0.8,
trend not decreasing), used by the C4 witness. -/
def ecC4 : ECTrendD :=
  { analyzed := true, trend := some "stable", initial_ec := some (8/10) }

/-- Witness for C4: the spec scenario with initial EC 0.8 and a
non-decreasing trend classifies as sensor_error. -/
theorem nutrients_zero_anomaly_cases_witness :
    ((evaluate_plant_status plantC4 none (some ecC4)).nutrients).map
      (fun r => (r.status, r.status_name)) = some (4, some "sensor_error") :=
  (nutrients_zero_anomaly_cases plantC4 none (some ecC4) thrC4 rfl rfl rfl).1
    ⟨ecC4, rfl, rfl, by norm_num [ecC4], by simp [ecC4]⟩

/-! ## Claim C5 -/

/-- The measurements response offers no summer threshold set. -/
def noSummerSet (md : Option MeasurementsD) : Prop :=
  ∀ m, md = some m → ∀ s ∈ m.thresholds_list.getD [],
    s.thresholds_type ≠ some "summer"

/-- When the salinity good band collapses to (0, 0) and no summer set is
available, the band used is the documented fallback (0.2, 1.0). -/
theorem salinityBand_fallback (t : ThresholdsD) (md : Option MeasurementsD)
    (h1 : t.salinity_min_good.getD 0 = 0)
    (h2 : t.salinity_max_good.getD 0 = 0) (hns : noSummerSet md) :
    salinityBand t md = (2/10, 1) := by
  rcases md with _ | m
  · simp [salinityBand, h1, h2]
  · rcases htl : m.thresholds_list with _ | tl
    · simp [salinityBand, h1, h2, htl]
    · have hfind : tl.find?
          (fun t => decide (t.thresholds_type = some "summer")) = none := by
        rw [List.find?_eq_none]
        intro x hx
        simp only [decide_eq_true_eq]
        exact hns m rfl x (by simp only [htl, Option.getD_some]; exact hx)
      simp [salinityBand, h1, h2, htl, hfind]

/-- C5: with a collapsed (0, 0) salinity good band and no summer set in
the measurements response, a nutrient value of 0.5 (without anomaly flag)
evaluates to (2, optimal) against the substituted fallback band
(0.2, 1.0). -/
theorem nutrients_fallback_band_optimal (plant : PlantD)
    (md : Option MeasurementsD) (ec : Option ECTrendD) (t : ThresholdsD)
    (hT : resolveThresholds plant md = some t)
    (h1 : t.salinity_min_good.getD 0 = 0)
    (h2 : t.salinity_max_good.getD 0 = 0) (hns : noSummerSet md)
    (hv : pyOr plant.salinity plant.soil_fertility = some (1/2))
    (ha : plant.soil_fertility_anomaly = false) :
    ((evaluate_plant_status plant md ec).nutrients).map
      (fun r => (r.status, r.status_name, r.min_good, r.max_good)) =
      some (2, some "optimal", some (2/10), some 1) := by
  have hband := salinityBand_fallback t md h1 h2 hns
  have hbase : evaluate_metric_status 2⁻¹ (2/10) 1
      t.salinity_min_acceptable t.salinity_max_acceptable = (2, "optimal") := by
    unfold evaluate_metric_status
    rw [if_pos ⟨by norm_num, by norm_num⟩]
  simp [evaluate_plant_status, hT, nutrientsResult, hv, ha, hband, hbase]

/-- A concrete threshold set with a collapsed salinity band, used by the
C5 witness. -/
def thrC5 : ThresholdsD :=
  { salinity_min_good := some 0, salinity_max_good := some 0 }

/-- A concrete plant with EC 0.5, used by the C5 witness. -/
def plantC5 : PlantD := { salinity := some (1/2), thresholds := some thrC5 }

/-- Witness for C5 at a concrete plant. -/
theorem nutrients_fallback_band_optimal_witness :
    ((evaluate_plant_status plantC5 none none).nutrients).map
      (fun r => (r.status, r.status_name, r.min_good, r.max_good)) =
      some (2, some "optimal", some (2/10), some 1) :=
  nutrients_fallback_band_optimal plantC5 none none thrC5 rfl rfl rfl
    (fun m h => by cases h) (by norm_num [pyOr, plantC5]) rfl

/-! ## Claim C6 -/

/-- A value that is below the good band but not below the acceptable
bound evaluates to (1, low). -/
theorem ems_low (v mg xg a : ℚ) (macc : Option ℚ) (hv : v < mg)
    (ha : a ≤ 0) (h0 : 0 ≤ v) :
    evaluate_metric_status v mg xg (some a) macc = (1, "low") := by
  have h1 : ¬(mg ≤ v ∧ v ≤ xg) := fun hc => absurd hc.1 (not_le.2 hv)
  have h2 : ¬(v < a) := not_lt.2 (ha.trans h0)
  simp [evaluate_metric_status, h1, hv, h2]

/-- C6 amended: every nonnegative light value below the good band is
classified (1, low), never critical, because the lower acceptable bound
is clamped to 0; a negative light value can still undercut the clamped
bound and is classified (4, critical_low). -/
theorem light_low_never_critical (plant : PlantD) (md : Option MeasurementsD)
    (ec : Option ECTrendD) (t : ThresholdsD) (v : ℚ)
    (hT : resolveThresholds plant md = some t)
    (hl : plant.light = some v) (h0 : 0 ≤ v)
    (hlt : v < t.light_min_good.getD 0) :
    ((evaluate_plant_status plant md ec).light).map
      (fun r => (r.status, r.status_name)) = some (1, some "low") := by
  rcases ha : t.light_min_acceptable with _ | a
  · have hr := ems_low v (t.light_min_good.getD 0) (t.light_max_good.getD 1000)
      0 t.light_max_acceptable hlt le_rfl h0
    simp [evaluate_plant_status, hT, lightResult, hl, ha, hr]
  · by_cases hpos : a > 0
    · have hr := ems_low v (t.light_min_good.getD 0) (t.light_max_good.getD 1000)
        0 t.light_max_acceptable hlt le_rfl h0
      simp [evaluate_plant_status, hT, lightResult, hl, ha, hpos, hr]
    · have hr := ems_low v (t.light_min_good.getD 0) (t.light_max_good.getD 1000)
        a t.light_max_acceptable hlt (not_lt.1 hpos) h0
      simp [evaluate_plant_status, hT, lightResult, hl, ha, hpos, hr]

/-- A concrete threshold set with the light band (50, 500) and no lower
acceptable bound, used by the C6 witness and counterexample. -/
def thrC6 : ThresholdsD :=
  { light_min_good := some 50, light_max_good := some 500 }

/-- A concrete plant with light 10, used by the C6 witness. -/
def plantC6 : PlantD := { light := some 10, thresholds := some thrC6 }

/-- Witness for C6: the spec scenario, light 10 against (50, 500, None),
evaluates to low. -/
theorem light_low_never_critical_witness :
    ((evaluate_plant_status plantC6 none none).light).map
      (fun r => (r.status, r.status_name)) = some (1, some "low") :=
  light_low_never_critical plantC6 none none thrC6 10 rfl rfl (by norm_num)
    (by norm_num [thrC6])

/-- A concrete plant with a negative light reading, used by the C6
counterexample. -/
def plantC6neg : PlantD := { light := some (-1), thresholds := some thrC6 }

/-- C6 counterexample: a light value of -1, below min_good = 50, is
classified (4, critical_low), not (1, low): the clamp to 0 does not
protect values below 0, so the claim fails as universally stated. -/
theorem light_low_never_critical_counterexample :
    ((evaluate_plant_status plantC6neg none none).light).map
      (fun r => (r.status, r.status_name)) = some (4, some "critical_low") := by
  have hr : evaluate_metric_status (-1) 50 500 (some 0) none
      = (4, "critical_low") := by
    unfold evaluate_metric_status
    norm_num
  simp [evaluate_plant_status, resolveThresholds, get_active_thresholds,
    plantC6neg, lightResult, thrC6, hr]

/-! ## Claim C3 -/

/-- C3: empty and single-point inputs yield the neutral stable/zero
result, but two points with a zero time range hit the unassigned
recent_value local and raise, modelled as an error result. -/
theorem calculate_trend_degenerate_eval :
    calculate_trend [] =
      Except.ok { direction := "stable",
                  slope := 0,
                  confidence := 0,
                  data_points := 0 } ∧
    calculate_trend [(1, 5)] =
      Except.ok { direction := "stable",
                  slope := 0,
                  confidence := 0,
                  data_points := 0 } ∧
    calculate_trend [(1, 2), (1, 3)] =
      Except.error "UnboundLocalError: local variable recent_value referenced before assignment" := by
  refine ⟨rfl, rfl, ?_⟩
  show calculate_trend [(1, 2), (1, 3)] = _
  unfold calculate_trend
  norm_num [List.insertionSort, List.orderedInsert, List.getLastD, List.headD]

/-! ## Claim C8 -/

/-- filter_events equals a single pass keeping exactly the events that
satisfy the conjunction of all provided criteria. -/
theorem filter_events_eq_filter (events : List Event) (f : EventFilters) :
    filter_events events (some f) = events.filter (eventMatches f) := by
  rcases f with ⟨os, op, ot, oi, oa⟩
  rcases os with _ | s <;> rcases op with _ | p <;> rcases ot with _ | t <;>
    rcases oi with _ | i <;> rcases oa with _ | a <;>
      · simp only [filter_events, List.filter_filter]
        refine Eq.symm ?_
        first
        | exact Eq.trans
            (List.filter_congr (fun e he => by simp [eventMatches]))
            (List.filter_true events)
        | exact List.filter_congr (fun e he => by
            simp [eventMatches, Bool.and_comm, Bool.and_left_comm, Bool.and_assoc])

/-- C8: the handler keeps exactly the events satisfying all provided
criteria (the output is a permutation of the one-pass AND filter) and the
output is sorted ascending by the (priority rank, severity rank) pair: no
event is preceded by one with a strictly greater pair. -/
theorem handle_events_postprocess_spec (events : List Event) (f : EventFilters) :
    (handle_events_postprocess events (some f)).Perm
        (events.filter (eventMatches f)) ∧
      List.Sorted eventLe (handle_events_postprocess events (some f)) ∧
      (handle_events_postprocess events (some f)).Pairwise (fun a b =>
        ¬(priority_rank b.priority < priority_rank a.priority ∨
          (priority_rank b.priority = priority_rank a.priority ∧
            severity_rank b.severity < severity_rank a.severity))) := by
  refine ⟨?_, ?_, ?_⟩
  · unfold handle_events_postprocess sort_events
    rw [filter_events_eq_filter]
    exact List.perm_insertionSort eventLe _
  · exact List.sorted_insertionSort eventLe _
  · have hs : List.Sorted eventLe (handle_events_postprocess events (some f)) :=
      List.sorted_insertionSort eventLe _
    refine List.Pairwise.imp ?_ hs
    intro a b hab
    rcases hab with h | ⟨h, hs2⟩
    · rintro (h2 | ⟨h2, _⟩)
      · exact absurd (h.trans h2) (lt_irrefl _)
      · exact absurd h (h2 ▸ lt_irrefl _)
    · rintro (h2 | ⟨h2, hs3⟩)
      · exact absurd (h ▸ h2) (lt_irrefl _)
      · exact absurd (lt_of_le_of_lt hs2 hs3) (lt_irrefl _)

/-! ## Claim C2 -/

/-- In a list sorted by the measurement key, every element is bounded by
the last element. -/
theorem sorted_getLast?_ge (l : List Meas) :
    ∀ m : Meas, List.Sorted measLe l → l.getLast? = some m →
      ∀ x ∈ l, measLe x m := by
  induction l with
  | nil => intro m _ hl; simp at hl
  | cons a t ih =>
    intro m hs hl x hx
    cases t with
    | nil =>
      have ham : a = m := by simpa using hl
      have hxa : x = a := by simpa using hx
      rw [hxa, ← ham]
      exact le_refl (measKey a)
    | cons b t2 =>
      rw [List.getLast?_cons_cons] at hl
      rcases List.mem_cons.1 hx with rfl | hx2
      · have hmm : m ∈ b :: t2 := by
          obtain ⟨h2, hEq⟩ := List.mem_getLast?_eq_getLast (Option.mem_def.2 hl)
          rw [hEq]
          exact List.getLast_mem h2
        exact List.rel_of_sorted_cons hs m hmm
      · exact ih m (List.Sorted.of_cons hs) hl x hx2

/-- On a nonempty list, get_latest_measurement returns an element of the
list whose resolved timestamp key bounds every other element. -/
theorem get_latest_mem_max (l : List Meas) (hne : l ≠ []) :
    ∃ m, get_latest_measurement l = some m ∧ m ∈ l ∧
      ∀ x ∈ l, measKey x ≤ measKey m := by
  have hsne : List.insertionSort measLe l ≠ [] := by
    intro h
    apply hne
    have hp := List.perm_insertionSort measLe l
    rw [h] at hp
    exact hp.symm.eq_nil
  refine ⟨(List.insertionSort measLe l).getLast hsne,
    List.getLast?_eq_getLast_of_ne_nil hsne, ?_, ?_⟩
  · exact (List.mem_insertionSort measLe).1 (List.getLast_mem hsne)
  · intro x hx
    have hx2 : x ∈ List.insertionSort measLe l :=
      (List.mem_insertionSort measLe).2 hx
    exact sorted_getLast?_ge (List.insertionSort measLe l) _
      (List.sorted_insertionSort measLe l)
      (List.getLast?_eq_getLast_of_ne_nil hsne) x hx2

/-- In a list with pairwise distinct measurement keys, equal keys force
equal elements. -/
theorem pairwise_key_unique {l : List Meas}
    (hpw : l.Pairwise (fun a b => measKey a ≠ measKey b)) {x y : Meas}
    (hx : x ∈ l) (hy : y ∈ l) (hk : measKey x = measKey y) : x = y := by
  by_contra hne
  exact List.Pairwise.forall (fun _ _ h => Ne.symm h) hpw hx hy hne hk

/-- C2 amended: get_latest_measurement returns None exactly on the empty
list; on a nonempty list it returns an element maximal by the resolved
timestamp key; and it is invariant under permutations whenever the
resolved timestamps are pairwise distinct.  (With tied keys the stable
sort makes the result depend on input order, so the unrestricted
order-invariance of the claim fails.) -/
theorem get_latest_measurement_spec (l : List Meas) :
    (l = [] → get_latest_measurement l = none) ∧
    (l ≠ [] → ∃ m, get_latest_measurement l = some m ∧ m ∈ l ∧
      ∀ x ∈ l, measKey x ≤ measKey m) ∧
    (∀ l2, l.Perm l2 →
      l.Pairwise (fun a b => measKey a ≠ measKey b) →
      get_latest_measurement l = get_latest_measurement l2) := by
  refine ⟨?_, get_latest_mem_max l, ?_⟩
  · intro h
    subst h
    rfl
  · intro l2 hperm hpw
    by_cases hnil : l = []
    · subst hnil
      rw [hperm.symm.eq_nil]
    · have hnil2 : l2 ≠ [] := fun h => hnil (by rw [h] at hperm; exact hperm.eq_nil)
      obtain ⟨m1, hm1, hmem1, hmax1⟩ := get_latest_mem_max l hnil
      obtain ⟨m2, hm2, hmem2, hmax2⟩ := get_latest_mem_max l2 hnil2
      have hmem2l : m2 ∈ l := (hperm.mem_iff).2 hmem2
      have h12 : measKey m1 ≤ measKey m2 := hmax2 m1 ((hperm.mem_iff).1 hmem1)
      have h21 : measKey m2 ≤ measKey m1 := hmax1 m2 hmem2l
      have heq : m1 = m2 := pairwise_key_unique hpw hmem1 hmem2l
        (le_antisymm h12 h21)
      rw [hm1, hm2, heq]

/-- Two distinct measurement records sharing the same resolved timestamp,
used by the C2 counterexample. -/
def measC2a : Meas := { date_utc := some "2024-01-01T00:00:00Z", tag := 1 }

/-- See measC2a. -/
def measC2b : Meas := { date_utc := some "2024-01-01T00:00:00Z", tag := 2 }

/-- C2 counterexample: two distinct records with equal resolved
timestamps; swapping them is a permutation, yet get_latest_measurement
returns a different record, so the unrestricted order-invariance fails. -/
theorem get_latest_measurement_counterexample :
    List.Perm [measC2a, measC2b] [measC2b, measC2a] ∧
    get_latest_measurement [measC2a, measC2b] ≠
      get_latest_measurement [measC2b, measC2a] := by
  constructor
  · exact List.Perm.swap measC2b measC2a []
  · decide

/-- Two measurement records with distinct resolved timestamps, used by
the C2 witness. -/
def measC2c : Meas := { date_utc := some "2024-01-01T00:00:00Z", tag := 3 }

/-- See measC2c. -/
def measC2d : Meas := { timestamp := some "2024-01-02T00:00:00Z", tag := 4 }

/-- Witness for C2: with distinct keys the result is order-invariant. -/
theorem get_latest_measurement_spec_witness :
    get_latest_measurement [measC2c, measC2d] =
      get_latest_measurement [measC2d, measC2c] :=
  (get_latest_measurement_spec [measC2c, measC2d]).2.2 [measC2d, measC2c]
    (List.Perm.swap measC2d measC2c []) (by decide)
